import Mathlib

/-!
Shallow embedding of `src/modules/extract_dicom_metadata.py`, a single-file
Python utility that reads a DICOM file with pydicom, maps a fixed checklist of
attributes into a JSON document, and writes it to an output path, with two
layers of error fallback (dependency-missing and generic exception).

Python floats are modelled as `PyFloat` (a rational, or nan / +inf / -inf);
attribute values delivered by pydicom are modelled as `PyVal` (string, bytes,
number, or multi-value list).  The interpreter-level effects (file written,
exit code, `exit(1)` versus `return`) are modelled explicitly.
-/

/-- Result of a Python float conversion: a finite rational or one of the
non-finite IEEE values that `float("nan")` / `float("inf")` produce. -/
inductive PyFloat where
  | finite : ℚ → PyFloat
  | nan : PyFloat
  | inf : PyFloat
  | ninf : PyFloat
deriving DecidableEq, Repr

/-- Whether the float is a finite number (representable as a standard JSON number). -/
def PyFloat.isFinite : PyFloat → Bool
  | .finite _ => true
  | _ => false

/-- Digit characters consumed from the front of a character list. -/
def takeDigits (cs : List Char) : List Char × List Char :=
  (cs.takeWhile Char.isDigit, cs.dropWhile Char.isDigit)

/-- Numeric value of a list of decimal digit characters. -/
def digitsVal (cs : List Char) : Nat :=
  cs.foldl (fun a c => a * 10 + (c.toNat - 48)) 0

/-- Parse an unsigned decimal literal `digits [. digits] [(e|E) [sign] digits]`
(at least one digit in the mantissa), as accepted by the Python `float`
constructor after sign and special forms are handled.  The result is the pair
`(m, k)` with value `m * 10 ^ k`. -/
def parseUnsigned (cs : List Char) : Option (Nat × Int) :=
  let (ip, r1) := takeDigits cs
  let (fp, r2) :=
    match r1 with
    | c1 :: rest => if c1 = '.' then takeDigits rest else ([], r1)
    | [] => ([], r1)
  if ip.isEmpty && fp.isEmpty then none
  else
    let mant := digitsVal (ip ++ fp)
    let fk : Int := -(fp.length : Int)
    match r2 with
    | [] => some (mant, fk)
    | c :: rest =>
      if c == 'e' || c == 'E' then
        let (sgn, rest2) : Int × List Char :=
          match rest with
          | r0 :: rr =>
            if r0 = '+' then ((1 : Int), rr)
            else if r0 = '-' then ((-1 : Int), rr)
            else ((1 : Int), rest)
          | [] => ((1 : Int), [])
        let (ed, r3) := takeDigits rest2
        if ed.isEmpty || !r3.isEmpty then none
        else some (mant, fk + sgn * (digitsVal ed : Int))
      else none

/-- The rational `sn * 10 ^ k`. -/
def decToRat (sn : Int) (k : Int) : ℚ :=
  if 0 ≤ k then Rat.divInt (sn * (10 : Int) ^ k.toNat) 1
  else Rat.divInt sn ((10 : Int) ^ (-k).toNat)

/-- The overflow threshold of a correctly rounded decimal-to-binary64
conversion, `2 ^ 1024 - 2 ^ 970`, written as a numeral so that the kernel can
compute with it (see `ovfl_eq`).  A decimal value of magnitude at least this
(the midpoint between the largest double and `2 ^ 1024`, which ties-to-even
rounds up) converts to an infinity; anything smaller rounds to a finite
double. -/
def ovfl : Int := 179769313486231580793728971405303415079934132710037826936173778980444968292764750946649017977587207096330286416692887910946555547851940402630657488671505820681908902000708383676273854845817711531764475730270069855571366959622842914819860834936475292719074168444365510704342711559699508093042880177904174497792

set_option maxRecDepth 2048 in
/-- Sanity check: the numeral above is `2 ^ 1024 - 2 ^ 970`. -/
theorem ovfl_eq : ovfl = 2 ^ 1024 - 2 ^ 970 := by norm_num [ovfl]

/-- Saturation of an exact decimal value to the Python `float` result: CPython
converts with correctly rounded `strtod`, which returns `±inf` exactly when
the decimal magnitude reaches `ovfl` (e.g. `float("1e400")` is `inf`).  The
comparison `ovfl ≤ q` is taken on the integer cross product, since `q.den` is
positive. -/
def satToFloat (q : ℚ) : PyFloat :=
  if ovfl * (q.den : Int) ≤ q.num then PyFloat.inf
  else if q.num ≤ -(ovfl * (q.den : Int)) then PyFloat.ninf
  else PyFloat.finite q

/-- Whitespace stripped by the Python `float` constructor. -/
def isPySpace (c : Char) : Bool :=
  c.toNat == 32 || c.toNat == 9 || c.toNat == 10 || c.toNat == 13
    || c.toNat == 11 || c.toNat == 12

/-- Leading and trailing whitespace removed. -/
def trimChars (cs : List Char) : List Char :=
  ((cs.dropWhile isPySpace).reverse.dropWhile isPySpace).reverse

/-- ASCII lowercase of one character. -/
def asciiLowerChar (c : Char) : Char :=
  if 65 ≤ c.toNat && c.toNat ≤ 90 then Char.ofNat (c.toNat + 32) else c

/-- ASCII uppercase of one character (the strings the script uppercases are
ASCII attribute texts, so Python `str.upper` coincides with this). -/
def asciiUpperChar (c : Char) : Char :=
  if 97 ≤ c.toNat && c.toNat ≤ 122 then Char.ofNat (c.toNat - 32) else c

/-- Python `s.upper()` on ASCII text. -/
def asciiUpper (s : String) : String :=
  String.mk (s.toList.map asciiUpperChar)

/-- Optional leading sign removed; the flag is true for a minus sign. -/
def stripSign : List Char → Bool × List Char
  | [] => (false, [])
  | c :: r =>
    if c = '+' then (false, r)
    else if c = '-' then (true, r)
    else (false, c :: r)

/-- The body of the Python `float(str)` conversion after whitespace and sign
handling: the case-insensitive special literals `inf` / `infinity` / `nan`,
otherwise a decimal literal whose exact value saturates to `±inf` past the
binary64 overflow threshold, as CPython's correctly rounded conversion does. -/
def parseFloatCore (p : Bool × List Char) : Option PyFloat :=
  let low := p.2.map asciiLowerChar
  if low = "inf".toList ∨ low = "infinity".toList then
    some (if p.1 then PyFloat.ninf else PyFloat.inf)
  else if low = "nan".toList then some PyFloat.nan
  else
    match parseUnsigned p.2 with
    | some (m, k) =>
      some (satToFloat (decToRat (if p.1 then -(m : Int) else (m : Int)) k))
    | none => none

/-- Python `float(str)`: strip whitespace, optional sign, then the special
literals or a decimal literal.  Returns `none` where the Python call raises
`ValueError`.  Finite values are kept as exact rationals (rounding to the
nearest double, and hence underflow to `0.0`, is not modelled — no claim
depends on the rounded value), but overflow to `±inf` is modelled exactly:
`float("1e400")` is `inf`, see `parseFloat?_overflow`. -/
def parseFloat? (s : String) : Option PyFloat :=
  parseFloatCore (stripSign (trimChars s.toList))

/-- Attribute value as delivered by pydicom: a string, a bytes object, a
number, or a MultiValue sequence of further values. -/
inductive PyVal where
  | str : String → PyVal
  | bytes : String → PyVal
  | num : PyFloat → PyVal
  | multi : List PyVal → PyVal

/-- Single-quote character, used by Python repr of bytes and strings. -/
def squo : String := String.mk [Char.ofNat 39]

/-- Python repr of a bytes object. -/
def bytesRepr (s : String) : String := "b" ++ squo ++ s ++ squo

/-- Python `repr` of a float.  The finite case is an approximation of CPython
float repr adequate for the values arising here; no claim depends on it. -/
def floatRepr : PyFloat → String
  | .nan => "nan"
  | .inf => "inf"
  | .ninf => "-inf"
  | .finite q =>
    if q.den == 1 then toString q.num ++ ".0"
    else toString q.num ++ "/" ++ toString q.den

mutual

/-- Python `str(value)`: identity on strings; quoted repr on bytes; repr on
floats and lists (the latter two approximated; the claims only exercise the
string branch). -/
def pyStr : PyVal → String
  | .str s => s
  | .bytes s => bytesRepr s
  | .num x => floatRepr x
  | .multi xs => "[" ++ pyStrList xs ++ "]"

/-- Python repr of one list element (strings quoted, unlike at top level). -/
def pyReprElem : PyVal → String
  | .str s => squo ++ s ++ squo
  | .bytes s => bytesRepr s
  | .num x => floatRepr x
  | .multi xs => "[" ++ pyStrList xs ++ "]"
termination_by structural v => v

/-- Comma-separated Python reprs of list elements. -/
def pyStrList : List PyVal → String
  | [] => ""
  | [v] => pyReprElem v
  | v :: vs => pyReprElem v ++ ", " ++ pyStrList vs
termination_by structural l => l

end

/-- Python `float(value)` on an attribute value: floats pass through, strings
and bytes are parsed, lists raise `TypeError` (`none`). -/
def pyFloat? : PyVal → Option PyFloat
  | .num x => some x
  | .str s => parseFloat? s
  | .bytes s => parseFloat? s
  | .multi _ => none

/-- JSON value as produced by Python `json.dump`: note that non-finite floats
are serialized by default as the non-standard tokens `NaN` / `Infinity`, so a
`Json.num` carrying a non-finite `PyFloat` is representable here. -/
inductive Json where
  | str : String → Json
  | num : PyFloat → Json
  | int : Int → Json
  | bool : Bool → Json
  | arr : List Json → Json
  | obj : List (String × Json) → Json

mutual

/-- The document serializes to standard (RFC 8259) JSON: every number in it is
finite.  `json.dump` emits `NaN` / `Infinity` tokens otherwise. -/
def Json.isValid : Json → Bool
  | .str _ => true
  | .num x => x.isFinite
  | .int _ => true
  | .bool _ => true
  | .arr xs => jsonListValid xs
  | .obj kvs => jsonKVsValid kvs
termination_by structural j => j

/-- All elements of an array are valid. -/
def jsonListValid : List Json → Bool
  | [] => true
  | j :: js => j.isValid && jsonListValid js
termination_by structural l => l

/-- All values of an object are valid. -/
def jsonKVsValid : List (String × Json) → Bool
  | [] => true
  | kv :: kvs => kv.2.isValid && jsonKVsValid kvs
termination_by structural l => l

end

mutual

/-- The helper `safe_value` of `extract_metadata` (lines 27-38): iterable
non-string/bytes/dict values become a list of recursively converted elements;
bytes become their `str` representation; otherwise try `float`, falling back
to `str`. -/
def safe_value : PyVal → Json
  | .multi xs => .arr (safeList xs)
  | .bytes s => .str (pyStr (.bytes s))
  | .str s =>
    match parseFloat? s with
    | some x => .num x
    | none => .str s
  | .num x => .num x
termination_by structural v => v

/-- Elementwise `safe_value` over a MultiValue. -/
def safeList : List PyVal → List Json
  | [] => []
  | v :: vs => safe_value v :: safeList vs
termination_by structural l => l

end

/-- The decoded DICOM dataset: every attribute the script queries with
`hasattr`, as an optional value (absent attribute = `none`). -/
structure Dicom where
  Manufacturer : Option PyVal
  ManufacturerModelName : Option PyVal
  MagneticFieldStrength : Option PyVal
  ProtocolName : Option PyVal
  SeriesDescription : Option PyVal
  SequenceName : Option PyVal
  ScanningSequence : Option PyVal
  SequenceVariant : Option PyVal
  ImageType : Option PyVal
  MRAcquisitionType : Option PyVal
  Private_0019_10e0 : Option PyVal
  SliceThickness : Option PyVal
  RepetitionTime : Option PyVal
  EchoTime : Option PyVal
  FlipAngle : Option PyVal
  SpacingBetweenSlices : Option PyVal
  PixelSpacing : Option PyVal

/-- A dataset with every attribute absent. -/
def Dicom.empty : Dicom :=
  ⟨none, none, none, none, none, none, none, none, none,
   none, none, none, none, none, none, none, none⟩

/-- Substring test on character lists (Python `needle in hay`). -/
def charsContain : List Char → List Char → Bool
  | needle, [] => needle.isEmpty
  | needle, c :: t => needle.isPrefixOf (c :: t) || charsContain needle t

/-- Python substring containment `needle in hay`. -/
def strContains (hay needle : String) : Bool :=
  charsContain needle.toList hay.toList

/-- The 3-D token scan of lines 79-86: uppercase the string and look for the
substrings `3D`, `MPRAGE`, `SPACE`. -/
def has3dTokens (s : String) : Bool :=
  let u := asciiUpper s
  strContains u "3D" || strContains u "MPRAGE" || strContains u "SPACE"

/-- The 3-D heuristic of lines 69-89: private Siemens tag present, or token
found in `SeriesDescription` or `SequenceName`. -/
def is3D (dcm : Dicom) : Bool :=
  dcm.Private_0019_10e0.isSome
    || (match dcm.SeriesDescription with
        | some v => has3dTokens (pyStr v)
        | none => false)
    || (match dcm.SequenceName with
        | some v => has3dTokens (pyStr v)
        | none => false)

/-- The scanner-family heuristic of line 126: `ManufacturerModelName` present
and containing the exact-case substring `MAGNETOM Sola`. -/
def isMagnetomSola (dcm : Dicom) : Bool :=
  match dcm.ManufacturerModelName with
  | some v => strContains (pyStr v) "MAGNETOM Sola"
  | none => false

/-- One `if hasattr: metadata[key] = safe_value(...)` step. -/
def fieldEntry (key : String) (v : Option PyVal) : List (String × Json) :=
  match v with
  | none => []
  | some x => [(key, safe_value x)]

/-- One `if hasattr: try: metadata[key] = float(...) except: pass` step. -/
def floatEntry (key : String) (v : Option PyVal) : List (String × Json) :=
  match v with
  | none => []
  | some x =>
    match pyFloat? x with
    | some f => [(key, Json.num f)]
    | none => []

/-- The `MagneticFieldStrength` step (lines 45-50): only when the attribute is
present, `float` it; on conversion failure default to `3.0` with a warning.
When the attribute is absent, no key is written. -/
def fieldStrengthEntry (v : Option PyVal) : List (String × Json) :=
  match v with
  | none => []
  | some x =>
    match pyFloat? x with
    | some f => [("fieldStrength", Json.num f)]
    | none => [("fieldStrength", Json.num (PyFloat.finite 3))]

/-- Elementwise `float` over the members of a MultiValue; `none` as soon as
one element raises. -/
def optFloats : List PyVal → Option (List PyFloat)
  | [] => some []
  | v :: vs =>
    match pyFloat? v, optFloats vs with
    | some f, some fs => some (f :: fs)
    | _, _ => none

/-- Elementwise `float` over the characters of a string being iterated. -/
def optCharFloats : List Char → Option (List PyFloat)
  | [] => some []
  | c :: cs =>
    match parseFloat? (String.mk [c]), optCharFloats cs with
    | some f, some fs => some (f :: fs)
    | _, _ => none

/-- Python iteration `[float(x) for x in value]`: elementwise float over a
MultiValue; a string iterates its characters; bytes iterate their byte values
(ints, on which `float` succeeds); a float is not iterable (`TypeError`).
`none` where any step of the comprehension raises. -/
def pyIterFloats? : PyVal → Option (List PyFloat)
  | .multi xs => optFloats xs
  | .str s => optCharFloats s.toList
  | .bytes s => some (s.toList.map (fun c => PyFloat.finite (c.toNat : ℚ)))
  | .num _ => none

/-- The `PixelSpacing` step (lines 119-123): the whole key is omitted when any
element fails to convert. -/
def pixelSpacingEntry (v : Option PyVal) : List (String × Json) :=
  match v with
  | none => []
  | some x =>
    match pyIterFloats? x with
    | some fs => [("pixelSpacing", Json.arr (fs.map Json.num))]
    | none => []

/-- The full Metadata Map of `extract_metadata` lines 24-127, in dict
insertion order.  `is3D` is only ever assigned the value `True` (first at the
private-tag check, possibly again after the token scan; both sites sit between
the `acquisitionType` and `sliceThickness` insertions, so insertion order is
the same either way). -/
def extractFields (dcm : Dicom) : List (String × Json) :=
  fieldEntry "manufacturer" dcm.Manufacturer
    ++ fieldEntry "modelName" dcm.ManufacturerModelName
    ++ fieldStrengthEntry dcm.MagneticFieldStrength
    ++ fieldEntry "protocolName" dcm.ProtocolName
    ++ fieldEntry "seriesDescription" dcm.SeriesDescription
    ++ fieldEntry "sequenceName" dcm.SequenceName
    ++ fieldEntry "scanningSequence" dcm.ScanningSequence
    ++ fieldEntry "sequenceVariant" dcm.SequenceVariant
    ++ fieldEntry "imageType" dcm.ImageType
    ++ fieldEntry "acquisitionType" dcm.MRAcquisitionType
    ++ (if is3D dcm then [("is3D", Json.bool true)] else [])
    ++ floatEntry "sliceThickness" dcm.SliceThickness
    ++ floatEntry "TR" dcm.RepetitionTime
    ++ floatEntry "TE" dcm.EchoTime
    ++ floatEntry "flipAngle" dcm.FlipAngle
    ++ floatEntry "spacingBetweenSlices" dcm.SpacingBetweenSlices
    ++ pixelSpacingEntry dcm.PixelSpacing
    ++ (if isMagnetomSola dcm then [("isMagnetomSola", Json.bool true)] else [])

/-- The fallback document written by both exception handlers (lines 140-146
and 154-160); note the integer literal `3`, not the float `3.0`. -/
def fallbackDoc (msg : String) : Json :=
  Json.obj
    [("manufacturer", Json.str "Unknown"),
     ("fieldStrength", Json.int 3),
     ("modelName", Json.str "Unknown"),
     ("error", Json.str msg)]

/-- How one call of `extract_metadata` ends: a Python `return code`, or
process termination raised from inside it (the `exit(1)` of line 148 raises
`SystemExit(1)`, which no handler of this script catches, so the interpreter
exits with that status). -/
inductive Outcome where
  | ret : Nat → Outcome
  | exited : Nat → Outcome
deriving DecidableEq, Repr

/-- The process exit status the outcome produces: a returned code is fed to
`sys.exit` by the driver, a raised `SystemExit` carries its code directly. -/
def Outcome.code : Outcome → Nat
  | .ret c => c
  | .exited c => c

/-- Everything one invocation of `extract_metadata` does that later claims
observe: how it ended, and the document written at the output path. -/
structure RunResult where
  outcome : Outcome
  written : Option Json

/-- The environment cases a call of `extract_metadata` can meet: the pydicom
module fails to import; `pydicom.dcmread` (or anything up to serialization) raises a
generic exception with the given message; or decoding succeeds with the given
dataset, after which no statement of lines 24-135 can raise (every per-field
conversion sits in its own absorbing handler). -/
inductive ExtractInput where
  | importError : ExtractInput
  | readError : String → ExtractInput
  | ok : Dicom → ExtractInput

/-- The function `extract_metadata` of lines 14-162, as a map from the
environment case to its observable result. -/
def extract_metadata : ExtractInput → RunResult
  | .importError => ⟨.exited 1, some (fallbackDoc "pydicom module not installed")⟩
  | .readError msg => ⟨.ret 2, some (fallbackDoc msg)⟩
  | .ok dcm => ⟨.ret 0, some (.obj (extractFields dcm))⟩

/-- The `__main__` block of lines 164-179: wrong arity prints a usage line and
exits 1 with no file created; a missing input file prints an error and exits 1
with no file created; otherwise the process status is the extraction outcome's
code (`sys.exit` on a returned code, or the propagated `SystemExit`). -/
structure CliResult where
  exitCode : Nat
  written : Option Json
  printed : List String

/-- The usage line printed for wrong arity (line 167). -/
def usageLine (prog : String) : String :=
  "Usage: " ++ prog ++ " <input_dicom_file> <output_json_file>"

/-- The error line printed for a missing input file (line 175). -/
def missingInputLine (f : String) : String :=
  "ERROR: Input file " ++ squo ++ f ++ squo ++ " does not exist"

/-- The CLI driver.  `argv` is the full `sys.argv` (program name included);
`inputIsFile` is the result of the `os.path.isfile` probe; `inp` is the
environment the extractor meets when invoked. -/
def cliMain (argv : List String) (inputIsFile : Bool) (inp : ExtractInput) :
    CliResult :=
  if argv.length ≠ 3 then
    { exitCode := 1, written := none, printed := [usageLine (argv.headD "")] }
  else if !inputIsFile then
    { exitCode := 1, written := none,
      printed := [missingInputLine (argv.getD 1 "")] }
  else
    let r := extract_metadata inp
    { exitCode := r.outcome.code, written := r.written, printed := [] }

/-- Content of the file at the output path (absent before a first run). -/
structure FileState where
  content : Option Json

/-- One run of `extract_metadata` against a given pre-existing output file:
the script opens the output with mode `w` (truncate), so whatever it writes
replaces the old content entirely. -/
def runExtract (inp : ExtractInput) (fs : FileState) : Nat × FileState :=
  let r := extract_metadata inp
  (r.outcome.code,
    ⟨match r.written with
     | some d => some d
     | none => fs.content⟩)

/-- First binding of a key in an association list (the keys the script inserts
are pairwise distinct, so this is the JSON object lookup). -/
def getKey (k : String) : List (String × Json) → Option Json
  | [] => none
  | (k2, v) :: rest => if k2 = k then some v else getKey k rest

/-- Left-biased choice on optional lookups. -/
def oOr : Option Json → Option Json → Option Json
  | some v, _ => some v
  | none, y => y

/-- Whether a top-level JSON object binds the given key. -/
def hasKey (k : String) : Json → Bool
  | .obj kvs => (getKey k kvs).isSome
  | _ => false

/-- Value of the `fieldStrength` key as a function of the attribute (the
observable content of lines 45-50). -/
def fsVal : Option PyVal → Option Json
  | none => none
  | some x =>
    match pyFloat? x with
    | some f => some (Json.num f)
    | none => some (Json.num (PyFloat.finite 3))

mutual

/-- The attribute value coerces to finite numbers only: every string or bytes
in it either fails `float` or parses to a finite value, and every number in it
is finite.  Under this condition everything the script derives from the value
is a standard JSON number. -/
def goodVal : PyVal → Bool
  | .str s =>
    match parseFloat? s with
    | some x => x.isFinite
    | none => true
  | .bytes s =>
    match parseFloat? s with
    | some x => x.isFinite
    | none => true
  | .num x => x.isFinite
  | .multi xs => goodList xs
termination_by structural v => v

/-- All elements coerce to finite numbers only. -/
def goodList : List PyVal → Bool
  | [] => true
  | v :: vs => goodVal v && goodList vs
termination_by structural l => l

end

/-- Substring containment after uppercasing both sides: the spec's
case-insensitive search. -/
def containsCI (hay needle : String) : Bool :=
  strContains (asciiUpper hay) (asciiUpper needle)

/-- The 3-D condition exactly as the spec words it: private flag present, or
`SeriesDescription` contains one of the three substrings case-insensitively,
or `SequenceName` does. -/
def spec3D (dcm : Dicom) : Bool :=
  dcm.Private_0019_10e0.isSome
    || (match dcm.SeriesDescription with
        | some v =>
          containsCI (pyStr v) "3D" || containsCI (pyStr v) "MPRAGE"
            || containsCI (pyStr v) "SPACE"
        | none => false)
    || (match dcm.SequenceName with
        | some v =>
          containsCI (pyStr v) "3D" || containsCI (pyStr v) "MPRAGE"
            || containsCI (pyStr v) "SPACE"
        | none => false)

/-! Lookup lemmas: `getKey` distributes over the append structure of
`extractFields`, and each insertion step binds exactly its own key. -/

@[simp]
theorem oOr_none_left (y : Option Json) : oOr none y = y := rfl

@[simp]
theorem oOr_some_left (v : Json) (y : Option Json) : oOr (some v) y = some v := rfl

@[simp]
theorem oOr_none_right (x : Option Json) : oOr x none = x := by
  cases x <;> rfl

theorem getKey_append (k : String) (l1 l2 : List (String × Json)) :
    getKey k (l1 ++ l2) = oOr (getKey k l1) (getKey k l2) := by
  induction l1 with
  | nil => rfl
  | cons kv rest ih =>
    obtain ⟨k2, v⟩ := kv
    by_cases h : k2 = k <;> simp [getKey, h, ih]

@[simp]
theorem getKey_fieldEntry (k n : String) (v : Option PyVal) :
    getKey k (fieldEntry n v) =
      if n = k then Option.map safe_value v else none := by
  cases v <;> by_cases h : n = k <;> simp [fieldEntry, getKey, h]

@[simp]
theorem getKey_floatEntry (k n : String) (v : Option PyVal) :
    getKey k (floatEntry n v) =
      if n = k then Option.map Json.num (v.bind pyFloat?) else none := by
  cases v with
  | none => by_cases h : n = k <;> simp [floatEntry, getKey, h]
  | some x =>
    cases hx : pyFloat? x <;> by_cases h : n = k <;>
      simp [floatEntry, getKey, h, hx]

@[simp]
theorem getKey_fieldStrengthEntry (k : String) (v : Option PyVal) :
    getKey k (fieldStrengthEntry v) =
      if "fieldStrength" = k then fsVal v else none := by
  cases v with
  | none => by_cases h : "fieldStrength" = k <;> simp [fieldStrengthEntry, fsVal, getKey, h]
  | some x =>
    cases hx : pyFloat? x <;> by_cases h : "fieldStrength" = k <;>
      simp [fieldStrengthEntry, fsVal, getKey, h, hx]

@[simp]
theorem getKey_pixelSpacingEntry (k : String) (v : Option PyVal) :
    getKey k (pixelSpacingEntry v) =
      if "pixelSpacing" = k then
        Option.map (fun fs => Json.arr (fs.map Json.num)) (v.bind pyIterFloats?)
      else none := by
  cases v with
  | none => by_cases h : "pixelSpacing" = k <;> simp [pixelSpacingEntry, getKey, h]
  | some x =>
    cases hx : pyIterFloats? x <;> by_cases h : "pixelSpacing" = k <;>
      simp [pixelSpacingEntry, getKey, h, hx]

@[simp]
theorem getKey_flagEntry (k n : String) (c : Bool) (j : Json) :
    getKey k (if c then [(n, j)] else []) =
      if n = k ∧ c = true then some j else none := by
  cases c <;> by_cases h : n = k <;> simp [getKey, h]

/-- Value of the `fieldStrength` key of the success document. -/
theorem getKey_fieldStrength_extract (dcm : Dicom) :
    getKey "fieldStrength" (extractFields dcm) =
      fsVal dcm.MagneticFieldStrength := by
  simp [extractFields, getKey_append]

/-- Value of the `is3D` key of the success document. -/
theorem getKey_is3D_extract (dcm : Dicom) :
    getKey "is3D" (extractFields dcm) =
      if is3D dcm then some (Json.bool true) else none := by
  simp [extractFields, getKey_append]

/-- Value of the `isMagnetomSola` key of the success document. -/
theorem getKey_sola_extract (dcm : Dicom) :
    getKey "isMagnetomSola" (extractFields dcm) =
      if isMagnetomSola dcm then some (Json.bool true) else none := by
  simp [extractFields, getKey_append]

/-- The success document never binds the key `error`. -/
theorem getKey_error_extract (dcm : Dicom) :
    getKey "error" (extractFields dcm) = none := by
  simp [extractFields, getKey_append]

/-- Value of the `sliceThickness` key of the success document. -/
theorem getKey_sliceThickness_extract (dcm : Dicom) :
    getKey "sliceThickness" (extractFields dcm) =
      Option.map Json.num (dcm.SliceThickness.bind pyFloat?) := by
  simp [extractFields, getKey_append]

/-- Value of the `TR` key of the success document. -/
theorem getKey_TR_extract (dcm : Dicom) :
    getKey "TR" (extractFields dcm) =
      Option.map Json.num (dcm.RepetitionTime.bind pyFloat?) := by
  simp [extractFields, getKey_append]

/-- Value of the `TE` key of the success document. -/
theorem getKey_TE_extract (dcm : Dicom) :
    getKey "TE" (extractFields dcm) =
      Option.map Json.num (dcm.EchoTime.bind pyFloat?) := by
  simp [extractFields, getKey_append]

/-- Value of the `flipAngle` key of the success document. -/
theorem getKey_flipAngle_extract (dcm : Dicom) :
    getKey "flipAngle" (extractFields dcm) =
      Option.map Json.num (dcm.FlipAngle.bind pyFloat?) := by
  simp [extractFields, getKey_append]

/-- Value of the `spacingBetweenSlices` key of the success document. -/
theorem getKey_spacing_extract (dcm : Dicom) :
    getKey "spacingBetweenSlices" (extractFields dcm) =
      Option.map Json.num (dcm.SpacingBetweenSlices.bind pyFloat?) := by
  simp [extractFields, getKey_append]

/-- Value of the `pixelSpacing` key of the success document. -/
theorem getKey_pixelSpacing_extract (dcm : Dicom) :
    getKey "pixelSpacing" (extractFields dcm) =
      Option.map (fun fs => Json.arr (fs.map Json.num))
        (dcm.PixelSpacing.bind pyIterFloats?) := by
  simp [extractFields, getKey_append]

/-! Finiteness: a dataset whose attributes are `allGood` produces a document
whose numbers are all finite, hence valid standard JSON. -/

set_option maxRecDepth 8192 in
/-- Overflow is modelled: a decimal literal past the binary64 range converts
to an infinity exactly as CPython's `float` does, and such a value is
classified as not coercing to finite numbers. -/
theorem parseFloat?_overflow :
    parseFloat? "1e400" = some PyFloat.inf ∧
    parseFloat? "-1e400" = some PyFloat.ninf ∧
    goodVal (.str "1e400") = false :=
  ⟨by decide, by decide, by decide⟩

mutual

theorem safe_value_valid : ∀ (v : PyVal), goodVal v = true →
    (safe_value v).isValid = true
  | .str s, h => by
    cases hp : parseFloat? s with
    | none => simp [safe_value, hp, Json.isValid]
    | some x =>
      simp only [goodVal, hp] at h
      simp [safe_value, hp, Json.isValid]
      exact h
  | .bytes s, _ => by simp [safe_value, Json.isValid]
  | .num x, h => by
    simp only [goodVal] at h
    simp [safe_value, Json.isValid]
    exact h
  | .multi xs, h => by
    simp only [goodVal] at h
    simp only [safe_value, Json.isValid]
    exact safeList_valid xs h
termination_by structural v => v

theorem safeList_valid : ∀ (l : List PyVal), goodList l = true →
    jsonListValid (safeList l) = true
  | [], _ => rfl
  | v :: vs, h => by
    simp only [goodList, Bool.and_eq_true] at h
    simp only [safeList, jsonListValid, Bool.and_eq_true]
    exact ⟨safe_value_valid v h.1, safeList_valid vs h.2⟩
termination_by structural l => l

end

/-- Dataset whose series description names a 3-D SPACE sequence. -/
def dicom3DExample : Dicom :=
  { Dicom.empty with SeriesDescription := some (.str "AX 3D SPACE T2") }

/-- Dataset of a 2-D FLAIR acquisition: no 3-D token, no private flag. -/
def dicom2DExample : Dicom :=
  { Dicom.empty with SeriesDescription := some (.str "AX T2 FLAIR"),
                     SequenceName := some (.str "se2d1") }

/-- Dataset from a MAGNETOM Sola scanner. -/
def dicomSolaExample : Dicom :=
  { Dicom.empty with ManufacturerModelName := some (.str "MAGNETOM Sola") }

/-- Dataset from a Prisma scanner. -/
def dicomPrismaExample : Dicom :=
  { Dicom.empty with ManufacturerModelName := some (.str "Prisma") }

/-- Dataset whose field strength attribute is the string `nan`, on which the
Python `float` conversion succeeds and returns an IEEE NaN. -/
def dicomNanExample : Dicom :=
  { Dicom.empty with MagneticFieldStrength := some (.str "nan") }

/-- Dataset whose field strength attribute is present but not numeric. -/
def dicomBadFS : Dicom :=
  { Dicom.empty with MagneticFieldStrength := some (.str "N/A") }

/-- Dataset where one float coercion (`EchoTime`) fails while another
(`RepetitionTime`) succeeds. -/
def dicomBadTE : Dicom :=
  { Dicom.empty with EchoTime := some (.str "fail"),
                     RepetitionTime := some (.str "2.0") }

/-- The token scan the code performs coincides with the case-insensitive
containment the spec words describe. -/
theorem is3D_eq_spec3D (dcm : Dicom) : is3D dcm = spec3D dcm := by
  have e1 : asciiUpper "3D" = "3D" := rfl
  have e2 : asciiUpper "MPRAGE" = "MPRAGE" := rfl
  have e3 : asciiUpper "SPACE" = "SPACE" := rfl
  unfold is3D spec3D has3dTokens containsCI
  cases dcm.SeriesDescription <;> cases dcm.SequenceName <;>
    simp [e1, e2, e3]

/-! Claim theorems. -/

/-- Claim C1 as stated is false: when the `MagneticFieldStrength` attribute is
absent the script skips the whole step (the `hasattr` guard on line 45), so the
output omits the `fieldStrength` key instead of defaulting it to `3.0`.  On the
dataset with every attribute absent, the key is not bound. -/
theorem C1_counterexample :
    Dicom.empty.MagneticFieldStrength = none ∧
    getKey "fieldStrength" (extractFields Dicom.empty) = none :=
  ⟨rfl, rfl⟩

/-- Claim C1, amended: only when `MagneticFieldStrength` is present but not
convertible to float does the output carry `fieldStrength = 3.0` (with a
warning); when the attribute is absent the key is omitted; when it converts,
the converted value is written. -/
theorem C1_fieldStrength_default (dcm : Dicom) :
    (∀ x : PyVal, dcm.MagneticFieldStrength = some x → pyFloat? x = none →
      getKey "fieldStrength" (extractFields dcm) =
        some (Json.num (PyFloat.finite 3)))
    ∧ (dcm.MagneticFieldStrength = none →
      getKey "fieldStrength" (extractFields dcm) = none)
    ∧ (∀ (x : PyVal) (f : PyFloat),
      dcm.MagneticFieldStrength = some x → pyFloat? x = some f →
      getKey "fieldStrength" (extractFields dcm) = some (Json.num f)) := by
  refine ⟨?_, ?_, ?_⟩
  · intro x hx hfx
    rw [getKey_fieldStrength_extract, hx]
    simp [fsVal, hfx]
  · intro hx
    rw [getKey_fieldStrength_extract, hx]
    rfl
  · intro x f hx hfx
    rw [getKey_fieldStrength_extract, hx]
    simp [fsVal, hfx]

/-- Witness for C1: a present but non-numeric field strength is defaulted to
`3.0`, and an absent one is omitted. -/
theorem C1_fieldStrength_default_witness :
    getKey "fieldStrength" (extractFields dicomBadFS) =
      some (Json.num (PyFloat.finite 3)) ∧
    getKey "fieldStrength" (extractFields Dicom.empty) = none :=
  ⟨(C1_fieldStrength_default dicomBadFS).1 (.str "N/A") rfl (by decide),
   (C1_fieldStrength_default Dicom.empty).2.1 rfl⟩

/-- Claim C2 as stated is false: on a dataset whose `MagneticFieldStrength`
is the string `nan`, the Python float conversion succeeds, so the successful
output document carries `fieldStrength` as a NaN, which is not a finite JSON
number. -/
theorem C2_counterexample :
    (extract_metadata (.ok dicomNanExample)).written =
      some (Json.obj [("fieldStrength", Json.num PyFloat.nan)]) ∧
    PyFloat.nan.isFinite = false :=
  ⟨rfl, rfl⟩

/-- Claim C2, amended: every numeric field of the successful output document
is exactly the result of the successful float coercion of its source
attribute (possibly NaN or an infinity, for attribute texts such as `nan` or
`inf`), and a field whose coercion fails is omitted rather than written. -/
theorem C2_numeric_fields (dcm : Dicom) :
    getKey "fieldStrength" (extractFields dcm) = fsVal dcm.MagneticFieldStrength
    ∧ getKey "sliceThickness" (extractFields dcm) =
        Option.map Json.num (dcm.SliceThickness.bind pyFloat?)
    ∧ getKey "TR" (extractFields dcm) =
        Option.map Json.num (dcm.RepetitionTime.bind pyFloat?)
    ∧ getKey "TE" (extractFields dcm) =
        Option.map Json.num (dcm.EchoTime.bind pyFloat?)
    ∧ getKey "flipAngle" (extractFields dcm) =
        Option.map Json.num (dcm.FlipAngle.bind pyFloat?)
    ∧ getKey "spacingBetweenSlices" (extractFields dcm) =
        Option.map Json.num (dcm.SpacingBetweenSlices.bind pyFloat?)
    ∧ getKey "pixelSpacing" (extractFields dcm) =
        Option.map (fun fs => Json.arr (fs.map Json.num))
          (dcm.PixelSpacing.bind pyIterFloats?) :=
  ⟨getKey_fieldStrength_extract dcm, getKey_sliceThickness_extract dcm,
   getKey_TR_extract dcm, getKey_TE_extract dcm, getKey_flipAngle_extract dcm,
   getKey_spacing_extract dcm, getKey_pixelSpacing_extract dcm⟩

/-- Claim C3: the `is3D` key is bound (always to `true`) exactly when the
private tag is present or one of the substrings `3D` / `MPRAGE` / `SPACE`
occurs case-insensitively in `SeriesDescription` or `SequenceName`; the two
worked examples of the spec behave as stated. -/
theorem C3_is3D :
    (∀ dcm : Dicom, getKey "is3D" (extractFields dcm) =
      if spec3D dcm = true then some (Json.bool true) else none)
    ∧ getKey "is3D" (extractFields dicom3DExample) = some (Json.bool true)
    ∧ getKey "is3D" (extractFields dicom2DExample) = none := by
  refine ⟨?_, rfl, rfl⟩
  intro dcm
  rw [getKey_is3D_extract, is3D_eq_spec3D]

/-- Claim C4: the `isMagnetomSola` key is bound (always to `true`) exactly
when `ManufacturerModelName` is present and contains the exact-case substring
`MAGNETOM Sola`; the two worked examples hold, and neither `is3D` nor
`isMagnetomSola` is ever bound to `false`. -/
theorem C4_isMagnetomSola :
    (∀ dcm : Dicom, getKey "isMagnetomSola" (extractFields dcm) =
      if (match dcm.ManufacturerModelName with
          | some v => strContains (pyStr v) "MAGNETOM Sola"
          | none => false) = true
      then some (Json.bool true) else none)
    ∧ getKey "isMagnetomSola" (extractFields dicomSolaExample) =
        some (Json.bool true)
    ∧ getKey "isMagnetomSola" (extractFields dicomPrismaExample) = none
    ∧ (∀ (dcm : Dicom) (j : Json),
        getKey "is3D" (extractFields dcm) = some j → j = Json.bool true)
    ∧ (∀ (dcm : Dicom) (j : Json),
        getKey "isMagnetomSola" (extractFields dcm) = some j →
          j = Json.bool true) := by
  refine ⟨?_, rfl, rfl, ?_, ?_⟩
  · intro dcm
    rw [getKey_sola_extract]
    rfl
  · intro dcm j hj
    rw [getKey_is3D_extract] at hj
    by_cases h : is3D dcm = true
    · rw [if_pos h] at hj
      exact (Option.some.injEq _ _ ▸ hj).symm
    · rw [if_neg h] at hj
      cases hj
  · intro dcm j hj
    rw [getKey_sola_extract] at hj
    by_cases h : isMagnetomSola dcm = true
    · rw [if_pos h] at hj
      exact (Option.some.injEq _ _ ▸ hj).symm
    · rw [if_neg h] at hj
      cases hj

/-- Witness for C4: the boolean-true invariant applied at the two example
datasets that do bind the keys. -/
theorem C4_isMagnetomSola_witness :
    Json.bool true = Json.bool true ∧ Json.bool true = Json.bool true :=
  ⟨C4_isMagnetomSola.2.2.2.1 dicom3DExample (Json.bool true) rfl,
   C4_isMagnetomSola.2.2.2.2 dicomSolaExample (Json.bool true) rfl⟩

/-- Claim C5: when pydicom is unavailable, `extract_metadata` writes exactly
the fixed fallback document and the resulting process exit status is 1 (the
`exit(1)` of line 148 raises `SystemExit(1)`, which nothing catches). -/
theorem C5_importError_fallback :
    extract_metadata ExtractInput.importError =
      ⟨Outcome.exited 1, some (fallbackDoc "pydicom module not installed")⟩
    ∧ (extract_metadata ExtractInput.importError).outcome.code = 1
    ∧ fallbackDoc "pydicom module not installed" =
        Json.obj
          [("manufacturer", Json.str "Unknown"),
           ("fieldStrength", Json.int 3),
           ("modelName", Json.str "Unknown"),
           ("error", Json.str "pydicom module not installed")] :=
  ⟨rfl, rfl, rfl⟩

/-- Claim C6: any exception other than the missing dependency reaches the
outer handler, which writes the fallback document carrying the exception
message and returns 2; after a successful decode nothing can raise (every
per-field conversion has its own absorbing handler), so the run returns 0 and
a failing optional coercion merely omits its own key, as the `EchoTime` /
`RepetitionTime` example shows. -/
theorem C6_generic_failure :
    (∀ msg : String, extract_metadata (.readError msg) =
        ⟨Outcome.ret 2, some (fallbackDoc msg)⟩)
    ∧ (∀ dcm : Dicom, (extract_metadata (.ok dcm)).outcome = Outcome.ret 0)
    ∧ (∀ dcm : Dicom, getKey "TE" (extractFields dcm) =
        Option.map Json.num (dcm.EchoTime.bind pyFloat?))
    ∧ extract_metadata (.ok dicomBadTE) =
        ⟨Outcome.ret 0, some (Json.obj [("TR", Json.num (PyFloat.finite 2))])⟩ :=
  ⟨fun _ => rfl, fun _ => rfl, getKey_TE_extract, rfl⟩

/-- Claim C8: wrong arity prints the usage line on standard output and exits
1 with no output file; an input path that is not an existing regular file
prints an error and exits 1 with no output file; otherwise the extractor runs
and the process exit status is exactly the code its outcome carries. -/
theorem C8_cli :
    (∀ (argv : List String) (isFile : Bool) (inp : ExtractInput),
        argv.length ≠ 3 →
        cliMain argv isFile inp =
          { exitCode := 1, written := none,
            printed := [usageLine (argv.headD "")] })
    ∧ (∀ (argv : List String) (inp : ExtractInput), argv.length = 3 →
        cliMain argv false inp =
          { exitCode := 1, written := none,
            printed := [missingInputLine (argv.getD 1 "")] })
    ∧ (∀ (argv : List String) (inp : ExtractInput), argv.length = 3 →
        cliMain argv true inp =
          { exitCode := (extract_metadata inp).outcome.code,
            written := (extract_metadata inp).written, printed := [] }) := by
  refine ⟨?_, ?_, ?_⟩
  · intro argv isFile inp h
    simp [cliMain, h]
  · intro argv inp h
    simp [cliMain, h]
  · intro argv inp h
    simp [cliMain, h]

/-- Witness for C8: the three branches at concrete command lines. -/
theorem C8_cli_witness :
    cliMain ["prog"] true ExtractInput.importError =
      { exitCode := 1, written := none, printed := [usageLine "prog"] } ∧
    cliMain ["prog", "in.dcm", "out.json"] false ExtractInput.importError =
      { exitCode := 1, written := none,
        printed := [missingInputLine "in.dcm"] } ∧
    cliMain ["prog", "in.dcm", "out.json"] true (.ok Dicom.empty) =
      { exitCode := 0, written := some (Json.obj []), printed := [] } :=
  ⟨C8_cli.1 ["prog"] true ExtractInput.importError (by decide),
   C8_cli.2.1 ["prog", "in.dcm", "out.json"] ExtractInput.importError rfl,
   (C8_cli.2.2 ["prog", "in.dcm", "out.json"] (.ok Dicom.empty) rfl).trans rfl⟩

/-- Claim C9: a run is a deterministic function of the decoded input — it
does not depend on what is already at the output path (mode `w` truncates),
and a second run on the same input returns the same code and leaves a
byte-identical document. -/
theorem C9_deterministic (inp : ExtractInput) (fs1 fs2 : FileState) :
    runExtract inp fs1 = runExtract inp fs2
    ∧ (runExtract inp (runExtract inp fs1).2).1 = (runExtract inp fs1).1
    ∧ (runExtract inp (runExtract inp fs1).2).2 = (runExtract inp fs1).2 := by
  refine ⟨?_, ?_, ?_⟩ <;> cases inp <;> rfl

/-- Claim C10: the written document always exists, and it carries the `error`
key exactly when the run did not end with code 0 — the success document never
binds `error`, both fallback documents always do. -/
theorem C10_error_key (inp : ExtractInput) :
    ∃ d : Json, (extract_metadata inp).written = some d ∧
      hasKey "error" d = ((extract_metadata inp).outcome.code != 0) := by
  cases inp with
  | importError => exact ⟨_, rfl, rfl⟩
  | readError msg =>
    refine ⟨fallbackDoc msg, rfl, ?_⟩
    simp [hasKey, fallbackDoc, getKey, extract_metadata, Outcome.code]
  | ok dcm =>
    refine ⟨Json.obj (extractFields dcm), rfl, ?_⟩
    simp [hasKey, getKey_error_extract, extract_metadata, Outcome.code]
